import Mathlib

/-!
Verification development for a small TypeScript repository consisting of
`Todo TS/src/main.ts` (a DOM form handler that appends to-do records to an
in-memory array) and a React input component `InputFeild`.

The embedding below translates the runtime behaviour of the source files into
Lean definitions: the to-do record, the mutable page state touched by the
handler, the handler itself (as a state transformer that also records the
ordered trace of the effects it performs), and a model of the JavaScript
builtin `String(...)` conversion applied to `Math.random()*1000`.
-/

/-- The `Todo` interface of `main.ts`: three fields `title`, `isCompleted`
and a readonly `id`. -/
structure Todo where
  title : String
  isCompleted : Bool
  id : String
deriving DecidableEq, Repr

/-- Decimal digits of a natural number, most significant first, accumulated
into `acc`; `fuel` bounds the recursion so the definition is structural and
kernel-reducible. Models how the integer part of a JS number prints. -/
def natDigitsCore (fuel : Nat) (n : Nat) (acc : List Char) : List Char :=
  match fuel with
  | 0 => acc
  | fuel + 1 =>
    if n < 10 then Char.ofNat (48 + n) :: acc
    else natDigitsCore fuel (n / 10) (Char.ofNat (48 + n % 10) :: acc)

/-- Decimal digit list of a natural number (always nonempty). -/
def natDigits (n : Nat) : List Char :=
  natDigitsCore (n + 1) n []

/-- Decimal expansion of the fractional part `q` (assumed in `[0,1)`),
producing `fuel` digits. Models the fractional digits a JS number prints. -/
def fracDigitsCore (fuel : Nat) (q : ℚ) : List Char :=
  match fuel with
  | 0 => []
  | fuel + 1 =>
    let d : Int := Rat.floor (q * 10)
    Char.ofNat (48 + d.toNat) :: fracDigitsCore fuel (q * 10 - (d : ℚ))

/-- Removes trailing `0` digits, as JS never prints trailing fractional
zeros. -/
def dropTrailingZeros (l : List Char) : List Char :=
  (l.reverse.dropWhile (fun c => c = '0')).reverse

/-- Models the JavaScript builtin `String(x)` conversion on a nonnegative
finite number: the integer part in decimal, then (when the fractional part
prints nonzero digits) a dot and the fractional digits. JS prints at most 17
significant digits; the model produces up to 17 fractional digits. -/
def jsNumberToStringOfNonneg (q : ℚ) : String :=
  let i : Nat := (Rat.floor q).toNat
  let fds := dropTrailingZeros (fracDigitsCore 17 (q - (Rat.floor q : ℚ)))
  if fds.isEmpty then String.mk (natDigits i)
  else String.mk (natDigits i) ++ "." ++ String.mk fds

/-- Models the JavaScript builtin `String(x)` conversion on a finite number,
with a leading minus sign for negative input. -/
def jsNumberToString (q : ℚ) : String :=
  if q < 0 then "-" ++ jsNumberToStringOfNonneg (-q)
  else jsNumberToStringOfNonneg q

/-- One observable effect performed by the submit handler, in the order the
handler's statements execute. -/
inductive Effect where
  | preventDefault : Effect
  | readValue (v : String) : Effect
  | push (t : Todo) : Effect
  | log (ts : List Todo) : Effect
deriving DecidableEq, Repr

/-- The page state touched by `main.ts`: the `todos` array, the current text
of the input field named `title`, whether the in-flight submit event had its
default prevented, the console output stream (each `console.log(todos)` call
appends the logged array), and the trace of effects performed so far. -/
structure JSState where
  todos : List Todo
  inputValue : String
  defaultPrevented : Bool
  console : List (List Todo)
  events : List Effect
deriving DecidableEq, Repr

/-- Models `e.preventDefault()`. -/
def preventDefault (s : JSState) : JSState :=
  { s with defaultPrevented := true,
           events := s.events ++ [Effect.preventDefault] }

/-- Models reading `todoInput.value`, the current text of the field named
`title`. -/
def readInputValue (s : JSState) : String × JSState :=
  (s.inputValue, { s with events := s.events ++ [Effect.readValue s.inputValue] })

/-- Models `todos.push(todo)`. -/
def pushTodo (t : Todo) (s : JSState) : JSState :=
  { s with todos := s.todos ++ [t],
           events := s.events ++ [Effect.push t] }

/-- Models `console.log(todos)`: the current whole array is written to the
console output stream. -/
def consoleLog (s : JSState) : JSState :=
  { s with console := s.console ++ [s.todos],
           events := s.events ++ [Effect.log s.todos] }

/-- The body of `myForm.onsubmit` in `main.ts`, with the result of this
invocation's `Math.random()` call passed in as `r`:
`e.preventDefault()`, then construction of
`{ title: todoInput.value, isCompleted: false, id: String(Math.random()*1000) }`,
then `todos.push(todo)`, then `console.log(todos)`. -/
def onsubmit (r : ℚ) (s : JSState) : JSState :=
  let s1 := preventDefault s
  let vs := readInputValue s1
  let todo : Todo :=
    { title := vs.1, isCompleted := false, id := jsNumberToString (r * 1000) }
  let s3 := pushTodo todo vs.2
  consoleLog s3

/-- The state at page load: `const todos = []`, no console output, no effects
performed, the input field holding text `v`. -/
def initialState (v : String) : JSState :=
  { todos := [], inputValue := v, defaultPrevented := false,
    console := [], events := [] }

/-- Models the user typing `v` into the input field. -/
def setInputValue (v : String) (s : JSState) : JSState :=
  { s with inputValue := v }

/-- Runs a sequence of form submissions; each submission is given by the text
in the input field at submit time and the `Math.random()` draw made by the
handler. -/
def runSubmissions : List (String × ℚ) → JSState → JSState
  | [], s => s
  | (v, r) :: rest, s => runSubmissions rest (onsubmit r (setInputValue v s))

/-!
Embedding of the React input component (`InputFeild`). The rendered output is
a small tree of virtual DOM nodes; event handlers are values of an abstract
type `α` so that rendered trees can be compared. The `Props` interface has
the three fields `todo`, `setTodo` and `handleAdd` of the source.
-/

/-- A rendered virtual DOM node. Each constructor carries exactly the
attributes the component's JSX writes; `value` on a text input is `none` when
the JSX gives the input no `value` attribute. -/
inductive RNode (α : Type) where
  | form (className : String) (onSubmit : Option α) (children : List (RNode α))
  | textInput (typeAttr : String) (placeholder : String) (className : String)
      (value : Option String) (onSubmit : Option α)
  | button (className : String) (typeAttr : String) (label : String)

/-- The `Props` interface of the component: the current text value, the state
setter, and the submit handler. `β` is the type of the setter callback and
`α` the type of event handlers. -/
structure Props (α β : Type) where
  todo : String
  setTodo : β
  handleAdd : α

/-- The `InputFeild` component: a pure function from props to rendered
output. The JSX renders `<form className="input">` with no `onSubmit`
attribute, containing `<input type="input" placeholder="Enter a Task"
className="input__box" onSubmit={handleAdd} />` and
`<button className="input_submit" type="submit">Go</button>`. -/
def InputFeild {α β : Type} (p : Props α β) : RNode α :=
  RNode.form "input" none
    [ RNode.textInput "input" "Enter a Task" "input__box" none (some p.handleAdd),
      RNode.button "input_submit" "submit" "Go" ]

/-- Handlers invoked when the form rendered by this tree is submitted. A DOM
`submit` event fires on the form element and bubbles to its ancestors; an
`onSubmit` listener on a descendant of the form (such as an input box) never
receives it, and input elements dispatch no submit events of their own. The
rendered tree's root is the form, so the invoked handlers are exactly the
form's own `onSubmit` listeners. -/
def submitForm {α : Type} : RNode α → List α
  | RNode.form _ (some h) _ => [h]
  | RNode.form _ none _ => []
  | _ => []

/-- The `onSubmit` attribute of a single node when it is a text input. -/
def ownInputSubmitAttr {α : Type} : RNode α → List (Option α)
  | RNode.textInput _ _ _ _ h => [h]
  | _ => []

/-- All `onSubmit` attributes attached to text-input nodes of the tree (the
component renders a tree of depth one, so the node and its direct children
cover the whole tree), in render order. -/
def inputSubmitAttrs {α : Type} : RNode α → List (Option α)
  | RNode.form _ _ children => (children.map ownInputSubmitAttr).flatten
  | n => ownInputSubmitAttr n

/-- The `value` attribute of a single node when it is a text input. -/
def ownInputValueAttr {α : Type} : RNode α → List (Option String)
  | RNode.textInput _ _ _ v _ => [v]
  | _ => []

/-- All `value` attributes attached to text-input nodes of the tree, in
render order. -/
def inputValueAttrs {α : Type} : RNode α → List (Option String)
  | RNode.form _ _ children => (children.map ownInputValueAttr).flatten
  | n => ownInputValueAttr n

/-- Whether a single node is a text input. -/
def isTextInput {α : Type} : RNode α → Nat
  | RNode.textInput _ _ _ _ _ => 1
  | _ => 0

/-- Number of text-input nodes in the tree. -/
def countTextInputs {α : Type} : RNode α → Nat
  | RNode.form _ _ children => (children.map isTextInput).sum
  | n => isTextInput n

/-- Whether a single node is a button with the given `type` attribute. -/
def isButtonOfType {α : Type} (ty : String) : RNode α → Nat
  | RNode.button _ t _ => if t = ty then 1 else 0
  | _ => 0

/-- Number of button nodes of the given `type` attribute in the tree. -/
def countButtonsOfType {α : Type} (ty : String) : RNode α → Nat
  | RNode.form _ _ children => (children.map (isButtonOfType ty)).sum
  | n => isButtonOfType ty n

/-! Helper lemmas. -/

theorem natDigitsCore_ne_nil (fuel : Nat) :
    ∀ (n : Nat) (acc : List Char), natDigitsCore (fuel + 1) n acc ≠ [] := by
  induction fuel with
  | zero =>
    intro n acc
    unfold natDigitsCore
    split
    · simp
    · unfold natDigitsCore
      simp
  | succ f ih =>
    intro n acc
    unfold natDigitsCore
    split
    · simp
    · exact ih _ _

theorem natDigits_ne_nil (n : Nat) : natDigits n ≠ [] :=
  natDigitsCore_ne_nil n n []

theorem jsNumberToStringOfNonneg_length_pos (q : ℚ) :
    0 < (jsNumberToStringOfNonneg q).length := by
  simp only [jsNumberToStringOfNonneg]
  split
  · exact List.length_pos.mpr (natDigits_ne_nil _)
  · have h1 : 0 < (String.mk (natDigits (Rat.floor q).toNat)).length :=
      List.length_pos.mpr (natDigits_ne_nil _)
    simp only [String.length_append]
    simp only [String.length] at h1 ⊢
    omega

theorem jsNumberToString_length_pos (q : ℚ) :
    0 < (jsNumberToString q).length := by
  unfold jsNumberToString
  split
  · simp only [String.length_append]
    have := jsNumberToStringOfNonneg_length_pos (-q)
    omega
  · exact jsNumberToStringOfNonneg_length_pos q

theorem onsubmit_todos (r : ℚ) (s : JSState) :
    (onsubmit r s).todos
      = s.todos
        ++ [{ title := s.inputValue, isCompleted := false,
              id := jsNumberToString (r * 1000) }] := rfl

theorem onsubmit_events (r : ℚ) (s : JSState) :
    (onsubmit r s).events
      = s.events
        ++ [Effect.preventDefault,
            Effect.readValue s.inputValue,
            Effect.push { title := s.inputValue, isCompleted := false,
                          id := jsNumberToString (r * 1000) },
            Effect.log (s.todos
              ++ [{ title := s.inputValue, isCompleted := false,
                    id := jsNumberToString (r * 1000) }])] := by
  simp [onsubmit, preventDefault, readInputValue, pushTodo, consoleLog]

/-! Claim theorems for the form-submission handler of `main.ts`. -/

/-- C1: for every text value `t` in the title input field, the submit handler
appends exactly one new record to `todos`, and that record has `title = t`,
`isCompleted = false`, and a non-empty string identifier. -/
theorem submit_appends_one_record (t : String) (r : ℚ) (s : JSState) :
    (onsubmit r (setInputValue t s)).todos
      = s.todos
        ++ [{ title := t, isCompleted := false,
              id := jsNumberToString (r * 1000) }]
    ∧ 0 < (jsNumberToString (r * 1000)).length :=
  ⟨rfl, jsNumberToString_length_pos _⟩

/-- C3: starting from the empty array, a sequence of `n` form submissions
leaves `todos` with length `n`, each single submission grows the length by
exactly one, and none of the operations the program performs on the state
(preventing the event default, reading the input field, pushing a record,
logging to the console, or typing into the input field) ever decreases the
length of `todos`. -/
theorem todos_length_grows_one_per_submission
    (subs : List (String × ℚ)) (v : String) (r : ℚ) (t : Todo) (u : String)
    (s : JSState) :
    (runSubmissions subs (initialState v)).todos.length = subs.length
    ∧ (onsubmit r s).todos.length = s.todos.length + 1
    ∧ (preventDefault s).todos.length = s.todos.length
    ∧ ((readInputValue s).2).todos.length = s.todos.length
    ∧ (pushTodo t s).todos.length = s.todos.length + 1
    ∧ (consoleLog s).todos.length = s.todos.length
    ∧ (setInputValue u s).todos.length = s.todos.length := by
  refine ⟨?_, ?_, rfl, rfl, ?_, rfl, rfl⟩
  · have key : ∀ (l : List (String × ℚ)) (st : JSState),
        (runSubmissions l st).todos.length = st.todos.length + l.length := by
      intro l
      induction l with
      | nil => intro st; simp [runSubmissions]
      | cons p rest ih =>
        intro st
        obtain ⟨pv, pr⟩ := p
        rw [runSubmissions, ih, onsubmit_todos]
        simp [setInputValue]
        omega
    rw [key]
    simp [initialState]
  · rw [onsubmit_todos]
    simp
  · simp [pushTodo]

/-- C4: records are append-only. A submission leaves every record already in
`todos` present, unmodified and in the same order (the new state's array is
the old array with one record appended), and each of the program's other
operations on the state leaves `todos` unchanged. -/
theorem todos_append_only (r : ℚ) (t : Todo) (u : String) (s : JSState) :
    (onsubmit r s).todos.take s.todos.length = s.todos
    ∧ (∃ added, (onsubmit r s).todos = s.todos ++ added)
    ∧ (∃ added, (pushTodo t s).todos = s.todos ++ added)
    ∧ (preventDefault s).todos = s.todos
    ∧ ((readInputValue s).2).todos = s.todos
    ∧ (consoleLog s).todos = s.todos
    ∧ (setInputValue u s).todos = s.todos := by
  refine ⟨?_, ⟨_, onsubmit_todos r s⟩, ⟨[t], rfl⟩, rfl, rfl, rfl, rfl⟩
  rw [onsubmit_todos]
  simp

/-- C5: the submit handler performs, in order: prevent the default browser
navigation, read the current text of the title input field, construct one
record from it, push that record onto `todos`, and write the whole updated
array to the console output stream; afterwards the event's default is
prevented and the console stream has received the whole array. -/
theorem handler_effect_order (r : ℚ) (s : JSState) :
    (onsubmit r s).events
      = s.events
        ++ [Effect.preventDefault,
            Effect.readValue s.inputValue,
            Effect.push { title := s.inputValue, isCompleted := false,
                          id := jsNumberToString (r * 1000) },
            Effect.log (s.todos
              ++ [{ title := s.inputValue, isCompleted := false,
                    id := jsNumberToString (r * 1000) }])]
    ∧ (onsubmit r s).defaultPrevented = true
    ∧ (onsubmit r s).console
        = s.console
          ++ [s.todos
              ++ [{ title := s.inputValue, isCompleted := false,
                    id := jsNumberToString (r * 1000) }]] :=
  ⟨onsubmit_events r s, rfl, by
    simp [onsubmit, preventDefault, readInputValue, pushTodo, consoleLog]⟩

/-- C6: invalid input is silently accepted. Submitting with the empty string
in the title field succeeds and appends a record whose title is the empty
string, and for every input value whatsoever the handler takes the same
single path: it appends exactly one record and signals no error. -/
theorem empty_title_silently_accepted (r : ℚ) (s : JSState) :
    (onsubmit r (setInputValue "" s)).todos
      = s.todos
        ++ [{ title := "", isCompleted := false,
              id := jsNumberToString (r * 1000) }]
    ∧ ∀ v : String,
        (onsubmit r (setInputValue v s)).todos
          = s.todos
            ++ [{ title := v, isCompleted := false,
                  id := jsNumberToString (r * 1000) }] :=
  ⟨rfl, fun _ => rfl⟩

/-- C7: identifiers are not guaranteed unique. The identifier is the string
form of the handler's random draw scaled by 1000, and when two submissions
happen to receive the same draw (here both draws are 1/2), the two distinct
records they produce carry equal identifiers. -/
theorem duplicate_identifiers_possible :
    ∃ t₁ t₂ : Todo,
      (runSubmissions [("a", (1:ℚ)/2), ("b", (1:ℚ)/2)] (initialState "")).todos
        = [t₁, t₂]
      ∧ t₁ ≠ t₂
      ∧ t₁.id = jsNumberToString ((1:ℚ)/2 * 1000)
      ∧ t₁.id = t₂.id := by
  refine ⟨{ title := "a", isCompleted := false,
            id := jsNumberToString ((1:ℚ)/2 * 1000) },
          { title := "b", isCompleted := false,
            id := jsNumberToString ((1:ℚ)/2 * 1000) },
          rfl, ?_, rfl, rfl⟩
  intro h
  exact absurd (congrArg Todo.title h) (by decide)

/-- C10: invariant of `todos`. Starting from the empty array, after any
sequence of submissions whose random draws all lie in `[0, 1)`, every record
in the array has `isCompleted = false` and an `id` that is the string form of
a number in the half-open interval `[0, 1000)`. -/
theorem todos_invariant
    (subs : List (String × ℚ)) (v : String)
    (hdraws : ∀ p ∈ subs, 0 ≤ p.2 ∧ p.2 < 1) :
    ∀ t ∈ (runSubmissions subs (initialState v)).todos,
      t.isCompleted = false
      ∧ ∃ q : ℚ, 0 ≤ q ∧ q < 1000 ∧ t.id = jsNumberToString q := by
  have key : ∀ (l : List (String × ℚ)) (s : JSState),
      (∀ p ∈ l, 0 ≤ p.2 ∧ p.2 < 1) →
      (∀ t ∈ s.todos,
        t.isCompleted = false
        ∧ ∃ q : ℚ, 0 ≤ q ∧ q < 1000 ∧ t.id = jsNumberToString q) →
      ∀ t ∈ (runSubmissions l s).todos,
        t.isCompleted = false
        ∧ ∃ q : ℚ, 0 ≤ q ∧ q < 1000 ∧ t.id = jsNumberToString q := by
    intro l
    induction l with
    | nil => intro s _ h; simpa [runSubmissions] using h
    | cons p rest ih =>
      obtain ⟨pv, pr⟩ := p
      intro s hd h
      rw [runSubmissions]
      apply ih
      · intro p' hp'
        exact hd p' (List.mem_cons_of_mem _ hp')
      · intro t ht
        rw [onsubmit_todos] at ht
        rcases List.mem_append.mp ht with h1 | h2
        · exact h t h1
        · rw [List.mem_singleton] at h2
          subst h2
          have hr := hd (pv, pr) (List.mem_cons_self _ _)
          refine ⟨rfl, pr * 1000, ?_, ?_, rfl⟩
          · exact mul_nonneg hr.1 (by norm_num)
          · have := mul_lt_mul_of_pos_right hr.2 (show (0:ℚ) < 1000 by norm_num)
            simpa using this
  apply key subs (initialState v) hdraws
  intro t ht
  simp [initialState] at ht

/-- Witness for C10 at the concrete submission sequence
`[("a", 1/2)]`: the draw 1/2 lies in `[0, 1)` and the invariant holds of the
resulting array. -/
theorem todos_invariant_witness :
    (∀ p ∈ [("a", (1:ℚ)/2)], 0 ≤ p.2 ∧ p.2 < 1)
    ∧ ∀ t ∈ (runSubmissions [("a", (1:ℚ)/2)] (initialState "")).todos,
        t.isCompleted = false
        ∧ ∃ q : ℚ, 0 ≤ q ∧ q < 1000 ∧ t.id = jsNumberToString q := by
  have hd : ∀ p ∈ [("a", (1:ℚ)/2)], 0 ≤ p.2 ∧ p.2 < 1 := by
    intro p hp
    rw [List.mem_singleton] at hp
    subst hp
    constructor <;> norm_num
  exact ⟨hd, todos_invariant [("a", (1:ℚ)/2)] "" hd⟩

/-! Claim theorems for the `InputFeild` component. -/

/-- C2, evaluated at a concrete props value (handler identifier 7): the
rendered tree is a form with one text field and one submit button, but the
form itself carries no `onSubmit` listener — the `onSubmit={handleAdd}`
attribute sits on the inner text input, which never receives submit events —
so submitting the rendered form invokes no handler at all, and in particular
does not invoke `handleAdd`. -/
theorem submitting_form_does_not_invoke_handleAdd :
    submitForm (InputFeild ({ todo := "x", setTodo := 0, handleAdd := 7 } :
        Props Nat Nat)) = []
    ∧ inputSubmitAttrs (InputFeild ({ todo := "x", setTodo := 0, handleAdd := 7 } :
        Props Nat Nat)) = [some 7]
    ∧ countTextInputs (InputFeild ({ todo := "x", setTodo := 0, handleAdd := 7 } :
        Props Nat Nat)) = 1
    ∧ countButtonsOfType "submit"
        (InputFeild ({ todo := "x", setTodo := 0, handleAdd := 7 } :
        Props Nat Nat)) = 1 :=
  ⟨rfl, rfl, rfl, rfl⟩

/-- C8: the component is stateless and deterministic. Its rendered output is
a pure function of the props: any two renders whose props agree field by
field (on `todo`, `setTodo` and `handleAdd`) produce identical output, with
no dependence on any other state and no validation branching. -/
theorem inputFeild_deterministic {α β : Type} (p₁ p₂ : Props α β)
    (h1 : p₁.todo = p₂.todo) (h2 : p₁.setTodo = p₂.setTodo)
    (h3 : p₁.handleAdd = p₂.handleAdd) :
    InputFeild p₁ = InputFeild p₂ := by
  clear h1 h2
  unfold InputFeild
  rw [h3]

/-- Witness for C8 at concrete props over `Nat` handlers: both props are
`{ todo := "x", setTodo := 0, handleAdd := 1 }` and the renders coincide. -/
theorem inputFeild_deterministic_witness :
    (({ todo := "x", setTodo := 0, handleAdd := 1 } : Props Nat Nat)).todo
        = (({ todo := "x", setTodo := 0, handleAdd := 1 } : Props Nat Nat)).todo
    ∧ (({ todo := "x", setTodo := 0, handleAdd := 1 } : Props Nat Nat)).setTodo
        = (({ todo := "x", setTodo := 0, handleAdd := 1 } : Props Nat Nat)).setTodo
    ∧ (({ todo := "x", setTodo := 0, handleAdd := 1 } : Props Nat Nat)).handleAdd
        = (({ todo := "x", setTodo := 0, handleAdd := 1 } : Props Nat Nat)).handleAdd
    ∧ InputFeild ({ todo := "x", setTodo := 0, handleAdd := 1 } : Props Nat Nat)
        = InputFeild ({ todo := "x", setTodo := 0, handleAdd := 1 } : Props Nat Nat) :=
  ⟨rfl, rfl, rfl, inputFeild_deterministic _ _ rfl rfl rfl⟩

/-- C9: the rendered output is independent of the `todo` and `setTodo` props:
two props values agreeing on `handleAdd` render identically however they
differ on `todo` or `setTodo`, and the rendered input box carries no `value`
attribute, so the current text value is never displayed in it. -/
theorem inputFeild_independent_of_todo {α β : Type} (p₁ p₂ : Props α β)
    (h : p₁.handleAdd = p₂.handleAdd) :
    InputFeild p₁ = InputFeild p₂
    ∧ inputValueAttrs (InputFeild p₁) = [none] := by
  constructor
  · unfold InputFeild
    rw [h]
  · rfl

/-- Witness for C9 at concrete props over `Nat` handlers differing in both
`todo` and `setTodo` but agreeing on `handleAdd`. -/
theorem inputFeild_independent_of_todo_witness :
    (({ todo := "a", setTodo := 0, handleAdd := 5 } : Props Nat Nat)).handleAdd
        = (({ todo := "b", setTodo := 9, handleAdd := 5 } : Props Nat Nat)).handleAdd
    ∧ (InputFeild ({ todo := "a", setTodo := 0, handleAdd := 5 } : Props Nat Nat)
        = InputFeild ({ todo := "b", setTodo := 9, handleAdd := 5 } : Props Nat Nat)
       ∧ inputValueAttrs
           (InputFeild ({ todo := "a", setTodo := 0, handleAdd := 5 } : Props Nat Nat))
         = [none]) :=
  ⟨rfl, inputFeild_independent_of_todo _ _ rfl⟩
